import Mathlib

/-!
Shallow embedding of the Prudentia risk engine core
(src/src/domain/entities.py, src/src/domain/basel_formulas.py,
src/src/engine/stressor.py and the aggregation helper of src/src/api/main.py),
followed by theorems settling the frozen claims about it.

Python floats are modelled as real numbers; `scipy.stats.norm.cdf` and
`scipy.stats.norm.ppf` are external math primitives, modelled abstractly by a
`NormalCDF` structure that records exactly the properties of the standard
normal distribution the code relies on (a strictly increasing CDF with values
in (0,1), whose `ppf` is a right inverse on (0,1)).  Every theorem that needs
a concrete instance uses `logisticN`, a fully constructed member of that
structure.
-/

/-- Exposure categories, from `ExposureType` in src/src/domain/entities.py. -/
inductive ExposureType where
  | CORPORATE
  | RETAIL
  | SME
  | FINANCIAL_INSTITUTION
deriving DecidableEq

/-- A loan, from `Loan` in src/src/domain/entities.py.  Pydantic's
`Optional[float] turnover` becomes `Option ℝ`. -/
structure Loan where
  id : String
  pd : ℝ
  lgd : ℝ
  ead : ℝ
  maturity : ℝ
  exposure_type : ExposureType
  turnover : Option ℝ

/-- The pydantic field validators of `Loan`: pd and lgd in [0,1], ead and
maturity positive, turnover nonnegative when present. -/
def Loan.Valid (l : Loan) : Prop :=
  0 ≤ l.pd ∧ l.pd ≤ 1 ∧ 0 ≤ l.lgd ∧ l.lgd ≤ 1 ∧ 0 < l.ead ∧ 0 < l.maturity ∧
    ∀ t, l.turnover = some t → 0 ≤ t

/-- A portfolio of loans, from `Portfolio` in src/src/domain/entities.py. -/
structure Portfolio where
  loans : List Loan

/-- `Portfolio.total_exposure`: the sum of the loans' ead. -/
def Portfolio.total_exposure (p : Portfolio) : ℝ :=
  (p.loans.map Loan.ead).sum

/-- Abstract model of `scipy.stats.norm`: the standard normal CDF `cdf` and
its inverse `ppf` (percent point function), recorded with the mathematical
facts about the normal distribution that the source relies on. -/
structure NormalCDF where
  cdf : ℝ → ℝ
  ppf : ℝ → ℝ
  cdf_strictMono : StrictMono cdf
  cdf_pos : ∀ x, 0 < cdf x
  cdf_lt_one : ∀ x, cdf x < 1
  cdf_ppf : ∀ p, 0 < p → p < 1 → cdf (ppf p) = p

/-- `CONFIDENCE_LEVEL_IRB` from src/src/domain/basel_formulas.py. -/
def CONFIDENCE_LEVEL_IRB : ℝ := 0.999

/-- The `sme_adjustment` subtracted inside `calculate_asset_correlation`
(src/src/domain/basel_formulas.py lines 24-28): 0 unless the exposure type is
SME and a turnover is present, else 0.04·(1 − (turnover clamped to
[5e6, 50e6] − 5e6)/45e6). -/
noncomputable def sme_adjustment (loan : Loan) : ℝ :=
  match loan.exposure_type, loan.turnover with
  | ExposureType.SME, some t =>
      let turnover_capped := min (max t 5000000) 50000000
      0.04 * (1 - (turnover_capped - 5000000) / 45000000)
  | _, _ => 0

/-- `calculate_asset_correlation` from src/src/domain/basel_formulas.py:
pd floored at 1e-7, corporate blend 0.12·k + 0.24·(1−k) with
k = (1 − e^(−50·pd))/(1 − e^(−50)), minus the SME adjustment, clamped at 0. -/
noncomputable def calculate_asset_correlation (loan : Loan) : ℝ :=
  let pd : ℝ := max loan.pd 0.0000001
  let numerator : ℝ := 1 - Real.exp (-50 * pd)
  let denominator : ℝ := 1 - Real.exp (-50)
  let k_factor := numerator / denominator
  let r := 0.12 * k_factor + 0.24 * (1 - k_factor)
  max (r - sme_adjustment loan) 0

/-- The smoothed maturity factor `b` computed inside `maturity_adjustment`
(src/src/domain/basel_formulas.py lines 34-38): pd floored at 1e-7, then
b = (0.11852 − 0.05478·ln pd)². -/
noncomputable def smoothed_b (pd : ℝ) : ℝ :=
  (0.11852 - 0.05478 * Real.log (max pd 0.0000001)) ^ 2

/-- `maturity_adjustment` from src/src/domain/basel_formulas.py:
(1 + (maturity − 2.5)·b) / (1 − 1.5·b) with b the smoothed factor above. -/
noncomputable def maturity_adjustment (loan : Loan) (pd0 : ℝ) : ℝ :=
  (1 + (loan.maturity - 2.5) * smoothed_b pd0) / (1 - 1.5 * smoothed_b pd0)

/-- `vasicek_model_capital` from src/src/domain/basel_formulas.py: 0 when
pd = 0 or pd ≥ 1, otherwise lgd·(Φ((Φ⁻¹(pd) + √ρ·Φ⁻¹(0.999))/√(1−ρ)) − pd)
times the maturity adjustment, floored at 0. -/
noncomputable def vasicek_model_capital (N : NormalCDF) (loan : Loan) : ℝ :=
  if loan.pd = 0 then 0
  else if 1 ≤ loan.pd then 0
  else
    max (loan.lgd *
      (N.cdf ((N.ppf loan.pd +
          Real.sqrt (calculate_asset_correlation loan) * N.ppf CONFIDENCE_LEVEL_IRB) /
        Real.sqrt (1 - calculate_asset_correlation loan)) - loan.pd) *
      maturity_adjustment loan loan.pd) 0

/-- `calculate_rwa` from src/src/domain/basel_formulas.py: K · 12.5 · ead. -/
noncomputable def calculate_rwa (N : NormalCDF) (loan : Loan) : ℝ :=
  vasicek_model_capital N loan * 12.5 * loan.ead

/-- `calculate_expected_loss` from src/src/domain/basel_formulas.py:
pd · lgd · ead. -/
noncomputable def calculate_expected_loss (loan : Loan) : ℝ :=
  loan.pd * loan.lgd * loan.ead

/-- `MacroScenario` from src/src/engine/stressor.py. -/
structure MacroScenario where
  name : String
  description : String
  gdp_growth : ℝ
  unemployment_rate : ℝ
  shock_factor : ℝ

/-- The `default_scenarios` dict built in `StressEngine._load_scenarios`
(src/src/engine/stressor.py), as an ordered key-value list. -/
noncomputable def default_scenarios : List (String × MacroScenario) :=
  [("baseline", ⟨"baseline", "Default", 0.015, 0.07, 0⟩),
   ("adverse", ⟨"adverse", "Adverse", -0.01, 0.09, 1.5⟩),
   ("severely_adverse", ⟨"severely_adverse", "Severe", -0.05, 0.12, 3⟩)]

/-- Keyed lookup in a scenario table, the python `dict[key]` access. -/
def find_scenario (scenarios : List (String × MacroScenario)) (key : String) :
    Option MacroScenario :=
  match scenarios with
  | [] => none
  | (k, v) :: rest => if key = k then some v else find_scenario rest key

/-- The scenario-resolution step of `StressEngine.apply_stress`
(src/src/engine/stressor.py lines 46-50): a known name resolves to its entry;
an unknown name falls back to `scenarios.get("adverse", first value)`
(python evaluates `list(self.scenarios.values())[0]` first, so an empty table
is an IndexError, modelled as `none`). -/
def resolve_scenario (scenarios : List (String × MacroScenario))
    (scenario_name : String) : Option MacroScenario :=
  match find_scenario scenarios scenario_name with
  | some sc => some sc
  | none =>
      match scenarios.head? with
      | none => none
      | some hd => some ((find_scenario scenarios "adverse").getD hd.2)

/-- The per-loan probit-shift transformation of `StressEngine.apply_stress`
(src/src/engine/stressor.py lines 56-66): pd clamped to [1e-5, 0.999],
z = Φ⁻¹(pd), z shifted by shock_factor·sensitivity, new pd = Φ(z); every
other field copied unchanged. -/
noncomputable def stress_loan (N : NormalCDF) (shock_factor sensitivity : ℝ)
    (loan : Loan) : Loan :=
  let pd_safe := max (min loan.pd 0.999) 0.00001
  let z_score := N.ppf pd_safe
  let shifted_z := z_score + shock_factor * sensitivity
  { loan with pd := N.cdf shifted_z }

/-- `StressEngine.apply_stress` from src/src/engine/stressor.py: resolve the
scenario, return the input portfolio when its shock_factor is 0, else map the
probit shift over the loans. -/
noncomputable def apply_stress (N : NormalCDF)
    (scenarios : List (String × MacroScenario)) (portfolio : Portfolio)
    (scenario_name : String) (sensitivity : ℝ) : Option Portfolio :=
  match resolve_scenario scenarios scenario_name with
  | none => none
  | some sc =>
      if sc.shock_factor = 0 then some portfolio
      else some ⟨portfolio.loans.map (stress_loan N sc.shock_factor sensitivity)⟩

/-- `AssessmentResult` from src/src/api/main.py. -/
structure AssessmentResult where
  total_exposure : ℝ
  total_expected_loss : ℝ
  total_rwa : ℝ
  capital_requirement : ℝ
  average_pd : ℝ

/-- `compute_portfolio_metrics` from src/src/api/main.py: all-zero result when
the total exposure is 0, else the bottom-up sums, the 8% capital requirement
and the unweighted mean pd (`np.mean(pds) if pds else 0.0`). -/
noncomputable def compute_portfolio_metrics (N : NormalCDF) (portfolio : Portfolio) :
    AssessmentResult :=
  let total_ead := portfolio.total_exposure
  if total_ead = 0 then
    { total_exposure := 0, total_expected_loss := 0, total_rwa := 0,
      capital_requirement := 0, average_pd := 0 }
  else
    let total_el := (portfolio.loans.map calculate_expected_loss).sum
    let total_rwa := (portfolio.loans.map (calculate_rwa N)).sum
    let pds := portfolio.loans.map Loan.pd
    let avg_pd := if pds = [] then 0 else pds.sum / (pds.length : ℝ)
    { total_exposure := total_ead, total_expected_loss := total_el,
      total_rwa := total_rwa, capital_requirement := total_rwa * 0.08,
      average_pd := avg_pd }

/-! ### The logistic instance of `NormalCDF`

The claims are settled for every `NormalCDF`; witnesses and counterexamples
instantiate it with the logistic distribution, whose CDF 1/(1 + e^(−x)) and
quantile ln(p/(1−p)) satisfy all the recorded properties and admit exact
closed-form reasoning. -/

/-- The logistic CDF. -/
noncomputable def logistic_cdf (x : ℝ) : ℝ := 1 / (1 + Real.exp (-x))

/-- The logistic quantile function. -/
noncomputable def logistic_ppf (p : ℝ) : ℝ := Real.log (p / (1 - p))

theorem logistic_cdf_strictMono : StrictMono logistic_cdf := by
  intro x y hxy
  have hx : 0 < 1 + Real.exp (-x) := by positivity
  have hy : 0 < 1 + Real.exp (-y) := by positivity
  have hexp : Real.exp (-y) < Real.exp (-x) := Real.exp_lt_exp.mpr (by linarith)
  have h1 : 1 + Real.exp (-y) < 1 + Real.exp (-x) := by linarith
  exact one_div_lt_one_div_of_lt hy h1

theorem logistic_cdf_pos (x : ℝ) : 0 < logistic_cdf x := by
  have hx : 0 < 1 + Real.exp (-x) := by positivity
  exact div_pos one_pos hx

theorem logistic_cdf_lt_one (x : ℝ) : logistic_cdf x < 1 := by
  have hx : 0 < 1 + Real.exp (-x) := by positivity
  have : 1 < 1 + Real.exp (-x) := by
    have := Real.exp_pos (-x); linarith
  calc logistic_cdf x = 1 / (1 + Real.exp (-x)) := rfl
    _ < 1 := (div_lt_one hx).mpr this

theorem logistic_cdf_ppf (p : ℝ) (h0 : 0 < p) (h1 : p < 1) :
    logistic_cdf (logistic_ppf p) = p := by
  have hq : 0 < p / (1 - p) := div_pos h0 (by linarith)
  have hp1 : (1 : ℝ) - p ≠ 0 := by linarith
  unfold logistic_cdf logistic_ppf
  rw [Real.exp_neg, Real.exp_log hq]
  rw [inv_div]
  field_simp

/-- The logistic distribution packaged as a `NormalCDF`. -/
noncomputable def logisticN : NormalCDF :=
  ⟨logistic_cdf, logistic_ppf, logistic_cdf_strictMono, logistic_cdf_pos,
    logistic_cdf_lt_one, logistic_cdf_ppf⟩

/-! ### Concrete sample data used by witnesses -/

/-- Standard corporate loan used by witnesses (ead 1e6, lgd 0.45). -/
def sample_loan : Loan :=
  { id := "C001", pd := 0.02, lgd := 0.45, ead := 1000000, maturity := 2.5,
    exposure_type := ExposureType.CORPORATE, turnover := none }

/-- One-loan portfolio used by witnesses. -/
def sample_portfolio : Portfolio := ⟨[sample_loan]⟩

/-! ### General helper lemmas -/

theorem vasicek_model_capital_nonneg (N : NormalCDF) (loan : Loan) :
    0 ≤ vasicek_model_capital N loan := by
  unfold vasicek_model_capital
  split
  · exact le_refl 0
  split
  · exact le_refl 0
  exact le_max_right _ 0

theorem find_scenario_eq_none (scenarios : List (String × MacroScenario))
    (key : String) (h : ∀ kv ∈ scenarios, key ≠ kv.1) :
    find_scenario scenarios key = none := by
  induction scenarios with
  | nil => rfl
  | cons hd tl ih =>
      obtain ⟨k, v⟩ := hd
      have hk : key ≠ k := h (k, v) (List.mem_cons_self _ _)
      simp only [find_scenario, if_neg hk]
      exact ih fun kv hkv => h kv (List.mem_cons_of_mem _ hkv)

/-! ### Claim theorems -/

/-- C1: for every loan, `vasicek_model_capital` returns exactly 0 when the
loan's pd equals 0 or pd ≥ 1, regardless of the other field values. -/
theorem C1_capital_zero_at_pd_boundary (N : NormalCDF) (loan : Loan)
    (h : loan.pd = 0 ∨ 1 ≤ loan.pd) : vasicek_model_capital N loan = 0 := by
  unfold vasicek_model_capital
  rcases h with h | h
  · rw [if_pos h]
  rcases eq_or_ne loan.pd 0 with h0 | h0
  · rw [if_pos h0]
  rw [if_neg h0, if_pos h]

/-- Witness for C1: a concrete loan with pd = 0 gets capital 0. -/
theorem C1_capital_zero_at_pd_boundary_witness :
    vasicek_model_capital logisticN
      { id := "W1", pd := 0, lgd := 0.45, ead := 1000000, maturity := 2.5,
        exposure_type := ExposureType.CORPORATE, turnover := none } = 0 :=
  C1_capital_zero_at_pd_boundary logisticN _ (Or.inl rfl)

/-- C5: applying the "baseline" scenario of the default catalog (shock_factor
0) returns the input portfolio itself, for every portfolio and sensitivity. -/
theorem C5_baseline_identity (N : NormalCDF) (p : Portfolio) (sensitivity : ℝ) :
    apply_stress N default_scenarios p "baseline" sensitivity = some p := by
  have hres : resolve_scenario default_scenarios "baseline" =
      some ⟨"baseline", "Default", 0.015, 0.07, 0⟩ := rfl
  unfold apply_stress
  rw [hres]
  simp

/-- C6: a scenario name that is none of the default catalog's keys resolves to
the "adverse" scenario, so `apply_stress` returns exactly the same result as
with "adverse". -/
theorem C6_unknown_name_falls_back_to_adverse (N : NormalCDF) (p : Portfolio)
    (sensitivity : ℝ) (scenario_name : String)
    (h : ∀ kv ∈ default_scenarios, scenario_name ≠ kv.1) :
    apply_stress N default_scenarios p scenario_name sensitivity =
      apply_stress N default_scenarios p "adverse" sensitivity := by
  have h1 : resolve_scenario default_scenarios scenario_name =
      some ⟨"adverse", "Adverse", -0.01, 0.09, 1.5⟩ := by
    unfold resolve_scenario
    rw [find_scenario_eq_none _ _ h]
    rfl
  have h2 : resolve_scenario default_scenarios "adverse" =
      some ⟨"adverse", "Adverse", -0.01, 0.09, 1.5⟩ := rfl
  unfold apply_stress
  rw [h1, h2]

/-- Witness for C6: "nonexistent_name" stresses like "adverse". -/
theorem C6_unknown_name_falls_back_to_adverse_witness :
    apply_stress logisticN default_scenarios sample_portfolio "nonexistent_name" 1 =
      apply_stress logisticN default_scenarios sample_portfolio "adverse" 1 :=
  C6_unknown_name_falls_back_to_adverse logisticN sample_portfolio 1
    "nonexistent_name" (by decide)

/-- C7: a portfolio with no loans, or with total exposure 0, aggregates to the
all-zero assessment result (the computation is total, nothing is raised). -/
theorem C7_zero_portfolio_all_zero (N : NormalCDF) (p : Portfolio)
    (h : p.loans = [] ∨ p.total_exposure = 0) :
    compute_portfolio_metrics N p =
      { total_exposure := 0, total_expected_loss := 0, total_rwa := 0,
        capital_requirement := 0, average_pd := 0 } := by
  have h0 : p.total_exposure = 0 := by
    rcases h with h | h
    · simp [Portfolio.total_exposure, h]
    · exact h
  unfold compute_portfolio_metrics
  rw [if_pos h0]

/-- Witness for C7: the empty portfolio aggregates to the all-zero result. -/
theorem C7_zero_portfolio_all_zero_witness :
    compute_portfolio_metrics logisticN ⟨[]⟩ =
      { total_exposure := 0, total_expected_loss := 0, total_rwa := 0,
        capital_requirement := 0, average_pd := 0 } :=
  C7_zero_portfolio_all_zero logisticN ⟨[]⟩ (Or.inl rfl)

/-- C8: for a non-empty portfolio with positive total exposure, the aggregator
returns total expected loss Σ pd·lgd·ead, total RWA Σ K·12.5·ead, capital
requirement = total RWA · 0.08, and the unweighted mean of the pds. -/
theorem C8_aggregate_formulas (N : NormalCDF) (p : Portfolio)
    (hne : p.loans ≠ []) (hpos : 0 < p.total_exposure) :
    (compute_portfolio_metrics N p).total_exposure = p.total_exposure ∧
    (compute_portfolio_metrics N p).total_expected_loss =
      (p.loans.map fun l => l.pd * l.lgd * l.ead).sum ∧
    (compute_portfolio_metrics N p).total_rwa =
      (p.loans.map fun l => vasicek_model_capital N l * 12.5 * l.ead).sum ∧
    (compute_portfolio_metrics N p).capital_requirement =
      (p.loans.map fun l => vasicek_model_capital N l * 12.5 * l.ead).sum * 0.08 ∧
    (compute_portfolio_metrics N p).average_pd =
      (p.loans.map Loan.pd).sum / (p.loans.length : ℝ) := by
  have h0 : ¬ p.total_exposure = 0 := ne_of_gt hpos
  have hmap : ¬ p.loans.map Loan.pd = [] := by
    simpa using hne
  unfold compute_portfolio_metrics
  rw [if_neg h0]
  refine ⟨rfl, rfl, rfl, rfl, ?_⟩
  show (if p.loans.map Loan.pd = [] then (0 : ℝ)
      else (p.loans.map Loan.pd).sum / ((p.loans.map Loan.pd).length : ℝ)) =
    (p.loans.map Loan.pd).sum / (p.loans.length : ℝ)
  rw [if_neg hmap, List.length_map]

/-- Witness for C8 on the one-loan sample portfolio. -/
theorem C8_aggregate_formulas_witness :
    sample_portfolio.loans ≠ [] ∧ 0 < sample_portfolio.total_exposure ∧
    ((compute_portfolio_metrics logisticN sample_portfolio).total_exposure =
        sample_portfolio.total_exposure ∧
      (compute_portfolio_metrics logisticN sample_portfolio).total_expected_loss =
        (sample_portfolio.loans.map fun l => l.pd * l.lgd * l.ead).sum ∧
      (compute_portfolio_metrics logisticN sample_portfolio).total_rwa =
        (sample_portfolio.loans.map fun l =>
          vasicek_model_capital logisticN l * 12.5 * l.ead).sum ∧
      (compute_portfolio_metrics logisticN sample_portfolio).capital_requirement =
        (sample_portfolio.loans.map fun l =>
          vasicek_model_capital logisticN l * 12.5 * l.ead).sum * 0.08 ∧
      (compute_portfolio_metrics logisticN sample_portfolio).average_pd =
        (sample_portfolio.loans.map Loan.pd).sum /
          (sample_portfolio.loans.length : ℝ)) :=
  ⟨by simp [sample_portfolio],
   by norm_num [sample_portfolio, Portfolio.total_exposure, sample_loan],
   C8_aggregate_formulas logisticN sample_portfolio (by simp [sample_portfolio])
     (by norm_num [sample_portfolio, Portfolio.total_exposure, sample_loan])⟩

/-- A valid loan already in default: pd = 1. -/
def defaulted_loan : Loan :=
  { id := "D1", pd := 1, lgd := 0.45, ead := 1000000, maturity := 2.5,
    exposure_type := ExposureType.CORPORATE, turnover := none }

/-- C2 counterexample: under the default "adverse" scenario (shock_factor
1.5 > 0) and sensitivity 1 > 0, the valid loan with pd = 1 comes back with a
strictly SMALLER pd — the 0.999 clamp sends it to Φ(Φ⁻¹(0.999) + 1.5) < 1 —
refuting the claim that every loan's pd strictly increases. -/
theorem C2_counterexample :
    defaulted_loan.Valid ∧
    resolve_scenario default_scenarios "adverse" =
      some ⟨"adverse", "Adverse", -0.01, 0.09, 1.5⟩ ∧
    (0:ℝ) < 1.5 ∧ (0:ℝ) < 1 ∧
    apply_stress logisticN default_scenarios ⟨[defaulted_loan]⟩ "adverse" 1 =
      some ⟨[stress_loan logisticN 1.5 1 defaulted_loan]⟩ ∧
    (stress_loan logisticN 1.5 1 defaulted_loan).pd < defaulted_loan.pd := by
  refine ⟨?_, rfl, by norm_num, by norm_num, ?_, ?_⟩
  · exact ⟨by norm_num [defaulted_loan], by norm_num [defaulted_loan],
      by norm_num [defaulted_loan], by norm_num [defaulted_loan],
      by norm_num [defaulted_loan], by norm_num [defaulted_loan],
      fun t ht => by simp [defaulted_loan] at ht⟩
  · have hres : resolve_scenario default_scenarios "adverse" =
        some ⟨"adverse", "Adverse", -0.01, 0.09, 1.5⟩ := rfl
    unfold apply_stress
    rw [hres]
    show (if (1.5:ℝ) = 0 then some (⟨[defaulted_loan]⟩ : Portfolio)
        else some ⟨[defaulted_loan].map (stress_loan logisticN 1.5 1)⟩) =
      some ⟨[stress_loan logisticN 1.5 1 defaulted_loan]⟩
    rw [if_neg (by norm_num : (1.5:ℝ) ≠ 0)]
    rfl
  · exact logisticN.cdf_lt_one _

/-- C2 (amended): whenever the requested name resolves to a scenario with
shock_factor > 0 and sensitivity > 0, `apply_stress` maps the probit shift
over the loans in order, and the pd of every loan whose pd is at most the
0.999 clamp strictly increases (a pd above 0.999 can come back smaller). -/
theorem C2_stress_strictly_increases_pd (N : NormalCDF)
    (scenarios : List (String × MacroScenario)) (p : Portfolio)
    (scenario_name : String) (sc : MacroScenario) (sensitivity : ℝ)
    (hres : resolve_scenario scenarios scenario_name = some sc)
    (hshock : 0 < sc.shock_factor) (hsens : 0 < sensitivity) :
    apply_stress N scenarios p scenario_name sensitivity =
      some ⟨p.loans.map (stress_loan N sc.shock_factor sensitivity)⟩ ∧
    ∀ loan ∈ p.loans, loan.pd ≤ 0.999 →
      loan.pd < (stress_loan N sc.shock_factor sensitivity loan).pd := by
  constructor
  · unfold apply_stress
    rw [hres]
    show (if sc.shock_factor = 0 then some p
        else some ⟨p.loans.map (stress_loan N sc.shock_factor sensitivity)⟩) =
      some ⟨p.loans.map (stress_loan N sc.shock_factor sensitivity)⟩
    rw [if_neg (ne_of_gt hshock)]
  · intro loan _ hpd
    have hsafe_lo : (0.00001 : ℝ) ≤ max (min loan.pd 0.999) 0.00001 :=
      le_max_right _ _
    have hsafe_hi : max (min loan.pd 0.999) 0.00001 ≤ 0.999 :=
      max_le (min_le_right _ _) (by norm_num)
    have h0 : (0:ℝ) < max (min loan.pd 0.999) 0.00001 :=
      lt_of_lt_of_le (by norm_num) hsafe_lo
    have h1 : max (min loan.pd 0.999) 0.00001 < 1 :=
      lt_of_le_of_lt hsafe_hi (by norm_num)
    have hple : loan.pd ≤ max (min loan.pd 0.999) 0.00001 := by
      rw [min_eq_left hpd]
      exact le_max_left _ _
    have hmono : N.cdf (N.ppf (max (min loan.pd 0.999) 0.00001)) <
        N.cdf (N.ppf (max (min loan.pd 0.999) 0.00001) +
          sc.shock_factor * sensitivity) :=
      N.cdf_strictMono (lt_add_of_pos_right _ (mul_pos hshock hsens))
    calc loan.pd ≤ max (min loan.pd 0.999) 0.00001 := hple
      _ = N.cdf (N.ppf (max (min loan.pd 0.999) 0.00001)) :=
          (N.cdf_ppf _ h0 h1).symm
      _ < (stress_loan N sc.shock_factor sensitivity loan).pd := hmono

/-- Witness for the amended C2 on the sample portfolio under "adverse". -/
theorem C2_stress_strictly_increases_pd_witness :
    resolve_scenario default_scenarios "adverse" =
      some ⟨"adverse", "Adverse", -0.01, 0.09, 1.5⟩ ∧
    (0:ℝ) < 1.5 ∧ (0:ℝ) < 1 ∧
    (apply_stress logisticN default_scenarios sample_portfolio "adverse" 1 =
      some ⟨sample_portfolio.loans.map (stress_loan logisticN 1.5 1)⟩ ∧
     ∀ loan ∈ sample_portfolio.loans, loan.pd ≤ 0.999 →
       loan.pd < (stress_loan logisticN 1.5 1 loan).pd) :=
  ⟨rfl, by norm_num, by norm_num,
   C2_stress_strictly_increases_pd logisticN default_scenarios sample_portfolio
     "adverse" ⟨"adverse", "Adverse", -0.01, 0.09, 1.5⟩ 1 rfl (by norm_num)
     (by norm_num)⟩

/-- The SME adjustment is between 0 and 0.04, for every loan. -/
theorem sme_adjustment_bounds (loan : Loan) :
    0 ≤ sme_adjustment loan ∧ sme_adjustment loan ≤ 0.04 := by
  unfold sme_adjustment
  cases loan.exposure_type <;> cases loan.turnover <;>
      try exact ⟨le_refl 0, by norm_num⟩
  rename_i t
  have h1 : (5000000:ℝ) ≤ min (max t 5000000) 50000000 :=
    le_min (le_max_right _ _) (by norm_num)
  have h2 : min (max t 5000000) 50000000 ≤ 50000000 := min_le_right _ _
  have h3 : 0 ≤ (min (max t 5000000) 50000000 - 5000000) / 45000000 := by
    apply div_nonneg <;> linarith
  have h4 : (min (max t 5000000) 50000000 - 5000000) / 45000000 ≤ 1 := by
    rw [div_le_one (by norm_num)]
    linarith
  constructor
  · show (0:ℝ) ≤ 0.04 * (1 - (min (max t 5000000) 50000000 - 5000000) / 45000000)
    nlinarith
  · show (0.04:ℝ) * (1 - (min (max t 5000000) 50000000 - 5000000) / 45000000) ≤ 0.04
    nlinarith

theorem one_sub_exp_neg_fifty_pos : 0 < 1 - Real.exp (-50) := by
  have : Real.exp (-50) < 1 := by
    rw [← Real.exp_zero]
    exact Real.exp_lt_exp.mpr (by norm_num)
  linarith

/-- C9: for every valid loan the asset correlation lies in [0.08, 0.24]; hence
1 − ρ ≥ 0.76 and √(1−ρ) > 0, so the square roots and the division by √(1−ρ)
inside `vasicek_model_capital` are over positive, well-defined quantities. -/
theorem C9_correlation_in_bounds (loan : Loan) (h : loan.Valid) :
    0.08 ≤ calculate_asset_correlation loan ∧
    calculate_asset_correlation loan ≤ 0.24 ∧
    0.76 ≤ 1 - calculate_asset_correlation loan ∧
    0 < Real.sqrt (1 - calculate_asset_correlation loan) := by
  have hD : 0 < 1 - Real.exp (-50) := one_sub_exp_neg_fifty_pos
  have hpd1 : max loan.pd 0.0000001 ≤ 1 := max_le h.2.1 (by norm_num)
  have hpd0 : (0:ℝ) ≤ max loan.pd 0.0000001 :=
    le_trans (by norm_num) (le_max_right _ _)
  have hek : Real.exp (-50 * max loan.pd 0.0000001) ≤ 1 := by
    rw [← Real.exp_zero]
    exact Real.exp_le_exp.mpr (by nlinarith)
  have hek2 : Real.exp (-50) ≤ Real.exp (-50 * max loan.pd 0.0000001) :=
    Real.exp_le_exp.mpr (by nlinarith)
  have hk0 : 0 ≤ (1 - Real.exp (-50 * max loan.pd 0.0000001)) /
      (1 - Real.exp (-50)) := by
    apply div_nonneg <;> linarith
  have hk1 : (1 - Real.exp (-50 * max loan.pd 0.0000001)) /
      (1 - Real.exp (-50)) ≤ 1 := by
    rw [div_le_one hD]
    linarith
  obtain ⟨ha0, ha4⟩ := sme_adjustment_bounds loan
  have hlo : (0.08:ℝ) ≤ calculate_asset_correlation loan := by
    unfold calculate_asset_correlation
    refine le_trans ?_ (le_max_left _ _)
    nlinarith
  have hhi : calculate_asset_correlation loan ≤ 0.24 := by
    unfold calculate_asset_correlation
    apply max_le _ (by norm_num)
    nlinarith
  exact ⟨hlo, hhi, by linarith,
    Real.sqrt_pos.mpr (by linarith)⟩

/-- Witness for C9 on the concrete sample loan. -/
theorem C9_correlation_in_bounds_witness :
    sample_loan.Valid ∧
    (0.08 ≤ calculate_asset_correlation sample_loan ∧
     calculate_asset_correlation sample_loan ≤ 0.24 ∧
     0.76 ≤ 1 - calculate_asset_correlation sample_loan ∧
     0 < Real.sqrt (1 - calculate_asset_correlation sample_loan)) :=
  have hv : sample_loan.Valid :=
    ⟨by norm_num [sample_loan], by norm_num [sample_loan],
     by norm_num [sample_loan], by norm_num [sample_loan],
     by norm_num [sample_loan], by norm_num [sample_loan],
     fun t ht => by simp [sample_loan] at ht⟩
  ⟨hv, C9_correlation_in_bounds sample_loan hv⟩

/-- C10: when the smoothed b-factor makes the maturity-adjustment denominator
negative (the singularity 1 − 1.5·b < 0 the spec leaves open),
`maturity_adjustment` still returns the closed-form real value over a nonzero
denominator — nothing is raised — and `vasicek_model_capital` still returns a
nonnegative ratio thanks to its final floor `max k 0`: the implementation's
de facto policy is to floor the capital at 0 silently. -/
theorem C10_singularity_floored (N : NormalCDF) (loan : Loan)
    (h0 : 0 < loan.pd) (h1 : loan.pd < 1)
    (hb : 1 - 1.5 * smoothed_b loan.pd < 0) :
    maturity_adjustment loan loan.pd =
      (1 + (loan.maturity - 2.5) * smoothed_b loan.pd) /
        (1 - 1.5 * smoothed_b loan.pd) ∧
    1 - 1.5 * smoothed_b loan.pd ≠ 0 ∧
    0 ≤ vasicek_model_capital N loan :=
  ⟨rfl, ne_of_lt hb, vasicek_model_capital_nonneg N loan⟩

/-- A loan whose tiny pd (the 1e-7 floor itself) drives the b-factor past the
2/3 singularity threshold. -/
def singular_loan : Loan :=
  { id := "S1", pd := 0.0000001, lgd := 0.45, ead := 1000000, maturity := 2.5,
    exposure_type := ExposureType.CORPORATE, turnover := none }

/-- At pd = 1e-7 the denominator 1 − 1.5·b is negative. -/
theorem smoothed_b_singular : 1 - 1.5 * smoothed_b (0.0000001:ℝ) < 0 := by
  have hlog : Real.log (0.0000001:ℝ) ≤ -14.556 := by
    have h1 : (0.0000001:ℝ) = ((10000000:ℝ))⁻¹ := by norm_num
    have h2 : Real.log (2097152:ℝ) ≤ Real.log (10000000:ℝ) :=
      Real.log_le_log (by norm_num) (by norm_num)
    have h3 : Real.log (2097152:ℝ) = 21 * Real.log 2 := by
      rw [show (2097152:ℝ) = 2 ^ (21:ℕ) by norm_num, Real.log_pow]
      norm_num
    have h4 : (0.6931471803:ℝ) < Real.log 2 := Real.log_two_gt_d9
    rw [h1, Real.log_inv]
    nlinarith
  have hmax : max (0.0000001:ℝ) 0.0000001 = 0.0000001 := max_self _
  unfold smoothed_b
  rw [hmax]
  have hinner : (0.9158:ℝ) ≤ 0.11852 - 0.05478 * Real.log (0.0000001:ℝ) := by
    nlinarith
  have hsq : (0.9158:ℝ)^2 ≤ (0.11852 - 0.05478 * Real.log (0.0000001:ℝ))^2 :=
    pow_le_pow_left₀ (by norm_num) hinner 2
  nlinarith

/-- Witness for C10 on the concrete singular loan. -/
theorem C10_singularity_floored_witness :
    0 < singular_loan.pd ∧ singular_loan.pd < 1 ∧
    1 - 1.5 * smoothed_b singular_loan.pd < 0 ∧
    (maturity_adjustment singular_loan singular_loan.pd =
      (1 + (singular_loan.maturity - 2.5) * smoothed_b singular_loan.pd) /
        (1 - 1.5 * smoothed_b singular_loan.pd) ∧
     1 - 1.5 * smoothed_b singular_loan.pd ≠ 0 ∧
     0 ≤ vasicek_model_capital logisticN singular_loan) :=
  ⟨by norm_num [singular_loan], by norm_num [singular_loan],
   smoothed_b_singular,
   C10_singularity_floored logisticN singular_loan
     (by norm_num [singular_loan]) (by norm_num [singular_loan])
     smoothed_b_singular⟩

theorem exp_neg_fifty_le_milli : Real.exp (-50) ≤ 0.001 := by
  have h3 : (Real.exp 1) ^ (7:ℕ) = Real.exp 7 := by
    rw [← Real.exp_nat_mul]
    norm_num
  have h1 : (2.7182818283:ℝ) ^ (7:ℕ) ≤ (Real.exp 1) ^ (7:ℕ) :=
    pow_le_pow_left₀ (by norm_num) (le_of_lt Real.exp_one_gt_d9) 7
  have h2 : (1000:ℝ) < (2.7182818283:ℝ) ^ (7:ℕ) := by norm_num
  have h7 : (1000:ℝ) < Real.exp 7 := by
    rw [← h3]
    linarith
  have hmono : Real.exp (-50) ≤ Real.exp (-7) := Real.exp_le_exp.mpr (by norm_num)
  have hneg : Real.exp (-7) = (Real.exp 7)⁻¹ := Real.exp_neg 7
  have hpos : (0:ℝ) < Real.exp 7 := Real.exp_pos _
  have hinv : (Real.exp 7)⁻¹ ≤ 0.001 := by
    rw [inv_eq_one_div, div_le_iff₀ hpos]
    linarith
  linarith [hmono, hneg ▸ hinv]

/-- The blend 0.12·k + 0.24·(1−k) − adj, clamped at 0, is strictly
anti-monotone in k while k stays under the 1/(1−e^(−50)) cap. -/
theorem corr_blend_strict_anti (k1 k2 adj : ℝ) (hlt : k1 < k2)
    (hk1 : k1 < 1.002) (ha0 : 0 ≤ adj) (ha4 : adj ≤ 0.04) :
    max (0.12 * k2 + 0.24 * (1 - k2) - adj) 0 <
      max (0.12 * k1 + 0.24 * (1 - k1) - adj) 0 := by
  have hr1 : 0 < 0.12 * k1 + 0.24 * (1 - k1) - adj := by nlinarith
  have hr : 0.12 * k2 + 0.24 * (1 - k2) - adj <
      0.12 * k1 + 0.24 * (1 - k1) - adj := by nlinarith
  rw [max_eq_left hr1.le]
  exact max_lt hr hr1

/-- Corporate loan with pd = 1e-8, strictly below the 1e-7 floor. -/
def tiny_pd_loan_a : Loan :=
  { id := "T1", pd := 0.00000001, lgd := 0.45, ead := 1000000, maturity := 2.5,
    exposure_type := ExposureType.CORPORATE, turnover := none }

/-- Corporate loan with pd = 1e-7, at the floor, otherwise identical. -/
def tiny_pd_loan_b : Loan :=
  { id := "T2", pd := 0.0000001, lgd := 0.45, ead := 1000000, maturity := 2.5,
    exposure_type := ExposureType.CORPORATE, turnover := none }

/-- C4 counterexample: two otherwise-identical loans with pds 1e-8 < 1e-7,
both in (0,1), get the SAME asset correlation, because both pds are floored
to 1e-7 before the blend; the strict decrease claimed over all of (0,1)
fails. -/
theorem C4_counterexample :
    0 < tiny_pd_loan_a.pd ∧ tiny_pd_loan_a.pd < 1 ∧
    0 < tiny_pd_loan_b.pd ∧ tiny_pd_loan_b.pd < 1 ∧
    tiny_pd_loan_a.pd < tiny_pd_loan_b.pd ∧
    tiny_pd_loan_a.exposure_type = tiny_pd_loan_b.exposure_type ∧
    tiny_pd_loan_a.turnover = tiny_pd_loan_b.turnover ∧
    ¬ calculate_asset_correlation tiny_pd_loan_b <
        calculate_asset_correlation tiny_pd_loan_a := by
  refine ⟨by norm_num [tiny_pd_loan_a], by norm_num [tiny_pd_loan_a],
    by norm_num [tiny_pd_loan_b], by norm_num [tiny_pd_loan_b],
    by norm_num [tiny_pd_loan_a, tiny_pd_loan_b], rfl, rfl, ?_⟩
  have heq : calculate_asset_correlation tiny_pd_loan_a =
      calculate_asset_correlation tiny_pd_loan_b := by
    unfold calculate_asset_correlation
    have h1 : max tiny_pd_loan_a.pd 0.0000001 = (0.0000001:ℝ) :=
      max_eq_right (by norm_num [tiny_pd_loan_a])
    have h2 : max tiny_pd_loan_b.pd 0.0000001 = (0.0000001:ℝ) :=
      max_eq_right (by norm_num [tiny_pd_loan_b])
    rw [h1, h2]
    rfl
  rw [heq]
  exact lt_irrefl _

/-- C4 (amended): for two loans identical in exposure type and turnover, with
pds in (0,1), pd1 < pd2 and pd1 at least the 1e-7 floor, the asset
correlation of the higher-pd loan is strictly smaller; below the floor both
pds collapse to 1e-7 and the correlations coincide. -/
theorem C4_correlation_strictly_decreasing (loan1 loan2 : Loan)
    (hexp : loan1.exposure_type = loan2.exposure_type)
    (hto : loan1.turnover = loan2.turnover)
    (hfloor : (0.0000001:ℝ) ≤ loan1.pd)
    (h1 : loan1.pd < 1) (h2 : loan2.pd < 1)
    (hlt : loan1.pd < loan2.pd) :
    calculate_asset_correlation loan2 < calculate_asset_correlation loan1 := by
  have hadj : sme_adjustment loan1 = sme_adjustment loan2 := by
    unfold sme_adjustment
    rw [hexp, hto]
  obtain ⟨ha0, ha4⟩ := sme_adjustment_bounds loan2
  have hD : 0 < 1 - Real.exp (-50) := one_sub_exp_neg_fifty_pos
  have hD999 : (0.999:ℝ) ≤ 1 - Real.exp (-50) := by
    have := exp_neg_fifty_le_milli
    linarith
  have hm1 : max loan1.pd 0.0000001 = loan1.pd := max_eq_left hfloor
  have hm2 : max loan2.pd 0.0000001 = loan2.pd :=
    max_eq_left (le_trans hfloor hlt.le)
  have he_lt : Real.exp (-50 * loan2.pd) < Real.exp (-50 * loan1.pd) :=
    Real.exp_lt_exp.mpr (by nlinarith)
  have hk_lt : (1 - Real.exp (-50 * loan1.pd)) / (1 - Real.exp (-50)) <
      (1 - Real.exp (-50 * loan2.pd)) / (1 - Real.exp (-50)) :=
    (div_lt_div_iff_of_pos_right hD).mpr (by linarith)
  have hk1b : (1 - Real.exp (-50 * loan1.pd)) / (1 - Real.exp (-50)) < 1.002 := by
    rw [div_lt_iff₀ hD]
    nlinarith [Real.exp_pos (-50 * loan1.pd)]
  unfold calculate_asset_correlation
  rw [hm1, hm2, hadj]
  exact corr_blend_strict_anti
    ((1 - Real.exp (-50 * loan1.pd)) / (1 - Real.exp (-50)))
    ((1 - Real.exp (-50 * loan2.pd)) / (1 - Real.exp (-50)))
    (sme_adjustment loan2) hk_lt hk1b ha0 ha4

/-- Witness for the amended C4: pds 0.005 < 0.15 on the standard corporate
profile give strictly decreasing correlation. -/
theorem C4_correlation_strictly_decreasing_witness :
    calculate_asset_correlation
        { id := "H1", pd := 0.15, lgd := 0.45, ead := 1000000, maturity := 2.5,
          exposure_type := ExposureType.CORPORATE, turnover := none } <
      calculate_asset_correlation
        { id := "L1", pd := 0.005, lgd := 0.45, ead := 1000000, maturity := 2.5,
          exposure_type := ExposureType.CORPORATE, turnover := none } :=
  C4_correlation_strictly_decreasing
    { id := "L1", pd := 0.005, lgd := 0.45, ead := 1000000, maturity := 2.5,
      exposure_type := ExposureType.CORPORATE, turnover := none }
    { id := "H1", pd := 0.15, lgd := 0.45, ead := 1000000, maturity := 2.5,
      exposure_type := ExposureType.CORPORATE, turnover := none }
    rfl rfl (by norm_num) (by norm_num) (by norm_num) (by norm_num)

/-! ### Non-monotonicity of the capital ratio in pd (claim C3)

A concrete pair of loans, identical but for pd (0.5 versus 0.999), on which
the capital ratio strictly DECREASES as pd increases: near pd = 1 the factor
Φ(...) − pd vanishes while the maturity adjustment stays bounded. -/

/-- Corporate loan with pd 0.5, unit lgd and ead, standard maturity. -/
def mono_loan_low : Loan :=
  { id := "M1", pd := 0.5, lgd := 1, ead := 1, maturity := 2.5,
    exposure_type := ExposureType.CORPORATE, turnover := none }

/-- The same loan with pd 0.999. -/
def mono_loan_high : Loan :=
  { id := "M2", pd := 0.999, lgd := 1, ead := 1, maturity := 2.5,
    exposure_type := ExposureType.CORPORATE, turnover := none }

theorem exp_le_milli_of_le_neg_seven (x : ℝ) (hx : x ≤ -7) :
    Real.exp x ≤ 0.001 := by
  have h3 : (Real.exp 1) ^ (7:ℕ) = Real.exp 7 := by
    rw [← Real.exp_nat_mul]
    norm_num
  have h1 : (2.7182818283:ℝ) ^ (7:ℕ) ≤ (Real.exp 1) ^ (7:ℕ) :=
    pow_le_pow_left₀ (by norm_num) (le_of_lt Real.exp_one_gt_d9) 7
  have h2 : (1000:ℝ) < (2.7182818283:ℝ) ^ (7:ℕ) := by norm_num
  have h7 : (1000:ℝ) < Real.exp 7 := by
    rw [← h3]
    linarith
  have hmono : Real.exp x ≤ Real.exp (-7) := Real.exp_le_exp.mpr hx
  have hneg : Real.exp (-7) = (Real.exp 7)⁻¹ := Real.exp_neg 7
  have hpos : (0:ℝ) < Real.exp 7 := Real.exp_pos 7
  have hinv : (Real.exp 7)⁻¹ ≤ 0.001 := by
    rw [inv_eq_one_div, div_le_iff₀ hpos]
    linarith
  linarith [hneg ▸ hinv]

theorem k25_ge : (0.999:ℝ) ≤ (1 - Real.exp (-25)) / (1 - Real.exp (-50)) := by
  have hD : 0 < 1 - Real.exp (-50) := one_sub_exp_neg_fifty_pos
  have hD1 : 1 - Real.exp (-50) ≤ 1 := by
    have := Real.exp_pos (-50)
    linarith
  have h25 : Real.exp (-25) ≤ 0.001 := exp_le_milli_of_le_neg_seven _ (by norm_num)
  rw [le_div_iff₀ hD]
  nlinarith

theorem k25_le : (1 - Real.exp (-25)) / (1 - Real.exp (-50)) ≤ 1.002 := by
  have hD : 0 < 1 - Real.exp (-50) := one_sub_exp_neg_fifty_pos
  have hD999 : (0.999:ℝ) ≤ 1 - Real.exp (-50) := by
    have := exp_neg_fifty_le_milli
    linarith
  have h25pos : 0 < Real.exp (-25) := Real.exp_pos _
  rw [div_le_iff₀ hD]
  nlinarith

theorem corr_low_eq : calculate_asset_correlation mono_loan_low =
    0.12 * ((1 - Real.exp (-25)) / (1 - Real.exp (-50))) +
      0.24 * (1 - (1 - Real.exp (-25)) / (1 - Real.exp (-50))) := by
  have h1 : calculate_asset_correlation mono_loan_low =
      max (0.12 * ((1 - Real.exp (-50 * 0.5)) / (1 - Real.exp (-50))) +
        0.24 * (1 - (1 - Real.exp (-50 * 0.5)) / (1 - Real.exp (-50))) -
        sme_adjustment mono_loan_low) 0 := by
    unfold calculate_asset_correlation
    rw [show max mono_loan_low.pd 0.0000001 = (0.5:ℝ) from by
      norm_num [mono_loan_low]]
  have h2 : (-50 * 0.5 : ℝ) = -25 := by norm_num
  rw [h1, h2, show sme_adjustment mono_loan_low = 0 from rfl, sub_zero]
  exact max_eq_left (by nlinarith [k25_le])

theorem corr_low_bounds : 0.11976 ≤ calculate_asset_correlation mono_loan_low ∧
    calculate_asset_correlation mono_loan_low ≤ 0.12012 := by
  rw [corr_low_eq]
  constructor
  · nlinarith [k25_le]
  · nlinarith [k25_ge]

theorem sqrt_corr_low_ge :
    0.346 ≤ Real.sqrt (calculate_asset_correlation mono_loan_low) := by
  have h := corr_low_bounds.1
  exact (Real.le_sqrt (by norm_num) (by linarith)).mpr (by nlinarith)

theorem sqrt_one_sub_corr_low_le :
    Real.sqrt (1 - calculate_asset_correlation mono_loan_low) ≤ 0.9383 := by
  have h := corr_low_bounds.1
  exact Real.sqrt_le_iff.mpr ⟨by norm_num, by nlinarith⟩

theorem sqrt_one_sub_corr_low_pos :
    0 < Real.sqrt (1 - calculate_asset_correlation mono_loan_low) := by
  have h := corr_low_bounds.2
  exact Real.sqrt_pos.mpr (by linarith)

theorem logistic_ppf_half : logistic_ppf 0.5 = 0 := by
  unfold logistic_ppf
  rw [show (0.5:ℝ) / (1 - 0.5) = 1 by norm_num, Real.log_one]

theorem logistic_ppf_999 : logistic_ppf 0.999 = Real.log 999 := by
  unfold logistic_ppf
  rw [show (0.999:ℝ) / (1 - 0.999) = 999 by norm_num]

theorem log_999_ge : (6.2383:ℝ) ≤ Real.log 999 := by
  have h512 : Real.log 512 ≤ Real.log 999 :=
    Real.log_le_log (by norm_num) (by norm_num)
  have h2 : Real.log 512 = 9 * Real.log 2 := by
    rw [show (512:ℝ) = 2 ^ (9:ℕ) by norm_num, Real.log_pow]
    norm_num
  have := Real.log_two_gt_d9
  linarith

theorem cond_term_low_ge :
    2.3 ≤ (logistic_ppf 0.5 +
        Real.sqrt (calculate_asset_correlation mono_loan_low) *
          logistic_ppf 0.999) /
      Real.sqrt (1 - calculate_asset_correlation mono_loan_low) := by
  rw [logistic_ppf_half, logistic_ppf_999, zero_add,
    le_div_iff₀ sqrt_one_sub_corr_low_pos]
  have hprod : (0.346:ℝ) * 6.2383 ≤
      Real.sqrt (calculate_asset_correlation mono_loan_low) * Real.log 999 :=
    mul_le_mul sqrt_corr_low_ge log_999_ge (by norm_num) (Real.sqrt_nonneg _)
  have hle := sqrt_one_sub_corr_low_le
  nlinarith

theorem logistic_cdf_at_2_3 : (0.9:ℝ) ≤ logistic_cdf 2.3 := by
  have h2 : Real.exp 2 = Real.exp 1 * Real.exp 1 := by
    rw [← Real.exp_add]
    norm_num
  have h23 : Real.exp 2.3 = Real.exp 2 * Real.exp 0.3 := by
    rw [← Real.exp_add]
    norm_num
  have he1 : (2.7182818283:ℝ) < Real.exp 1 := Real.exp_one_gt_d9
  have h03 : (1.3:ℝ) ≤ Real.exp 0.3 := by
    have := Real.add_one_le_exp (0.3:ℝ)
    linarith
  have hlower : (9.2:ℝ) ≤ Real.exp 2.3 := by
    rw [h23, h2]
    nlinarith
  have hneg : Real.exp (-2.3) = (Real.exp 2.3)⁻¹ := Real.exp_neg 2.3
  have hexp_pos : (0:ℝ) < Real.exp 2.3 := Real.exp_pos _
  have hinv : (Real.exp 2.3)⁻¹ ≤ 1 / 9.2 := by
    rw [inv_eq_one_div]
    exact one_div_le_one_div_of_le (by norm_num) hlower
  have hden : 1 + Real.exp (-2.3) ≤ 1 + 1 / 9.2 := by
    rw [hneg]
    linarith
  have hden_pos : (0:ℝ) < 1 + Real.exp (-2.3) := by positivity
  calc (0.9:ℝ) ≤ 1 / (1 + 1 / 9.2) := by norm_num
    _ ≤ 1 / (1 + Real.exp (-2.3)) := one_div_le_one_div_of_le hden_pos hden
    _ = logistic_cdf 2.3 := rfl

theorem b_low_le : smoothed_b 0.5 ≤ 0.0245 := by
  unfold smoothed_b
  rw [show max (0.5:ℝ) 0.0000001 = 0.5 from by norm_num,
    show Real.log (0.5:ℝ) = -Real.log 2 from by
      rw [show (0.5:ℝ) = 2⁻¹ by norm_num, Real.log_inv]]
  have h2a := Real.log_two_gt_d9
  have h2b := Real.log_two_lt_d9
  have hinner_lo : (0:ℝ) ≤ 0.11852 - 0.05478 * -Real.log 2 := by nlinarith
  have hinner_hi : 0.11852 - 0.05478 * -Real.log 2 ≤ 0.1565 := by nlinarith
  calc (0.11852 - 0.05478 * -Real.log 2) ^ 2 ≤ 0.1565 ^ 2 :=
      pow_le_pow_left₀ hinner_lo hinner_hi 2
    _ ≤ 0.0245 := by norm_num

theorem ma_low_ge_one : 1 ≤ maturity_adjustment mono_loan_low 0.5 := by
  have hb0 : 0 ≤ smoothed_b 0.5 := sq_nonneg _
  have hb1 := b_low_le
  unfold maturity_adjustment
  rw [show 1 + (mono_loan_low.maturity - 2.5) * smoothed_b 0.5 = 1 from by
    norm_num [mono_loan_low]]
  have hd_pos : 0 < 1 - 1.5 * smoothed_b 0.5 := by nlinarith
  rw [le_div_iff₀ hd_pos]
  nlinarith

theorem vasicek_low_eq : vasicek_model_capital logisticN mono_loan_low =
    max ((1:ℝ) *
      (logistic_cdf ((logistic_ppf 0.5 +
          Real.sqrt (calculate_asset_correlation mono_loan_low) *
            logistic_ppf 0.999) /
        Real.sqrt (1 - calculate_asset_correlation mono_loan_low)) - 0.5) *
      maturity_adjustment mono_loan_low 0.5) 0 := by
  unfold vasicek_model_capital
  rw [if_neg (by norm_num [mono_loan_low] : ¬ mono_loan_low.pd = 0),
    if_neg (by norm_num [mono_loan_low] : ¬ (1:ℝ) ≤ mono_loan_low.pd)]
  rfl

theorem vasicek_low_ge : 0.4 ≤ vasicek_model_capital logisticN mono_loan_low := by
  rw [vasicek_low_eq]
  set t := (logistic_ppf 0.5 +
      Real.sqrt (calculate_asset_correlation mono_loan_low) *
        logistic_ppf 0.999) /
    Real.sqrt (1 - calculate_asset_correlation mono_loan_low) with ht
  have h23 : (2.3:ℝ) ≤ t := by
    rw [ht]
    exact cond_term_low_ge
  have hcdf : (0.9:ℝ) ≤ logistic_cdf t :=
    le_trans logistic_cdf_at_2_3 (logistic_cdf_strictMono.monotone h23)
  have hma := ma_low_ge_one
  refine le_trans ?_ (le_max_left _ _)
  have key : (0.4:ℝ) * 1 ≤
      (logistic_cdf t - 0.5) * maturity_adjustment mono_loan_low 0.5 :=
    mul_le_mul (by linarith) hma (by norm_num) (by linarith)
  nlinarith [key]

theorem log_999m_bounds : -0.0011 ≤ Real.log 0.999 ∧ Real.log 0.999 < 0 := by
  constructor
  · have h := Real.log_le_sub_one_of_pos (show (0:ℝ) < (0.999:ℝ)⁻¹ by norm_num)
    rw [Real.log_inv] at h
    have h2 : ((0.999:ℝ))⁻¹ - 1 ≤ 0.0011 := by norm_num
    linarith
  · exact Real.log_neg (by norm_num) (by norm_num)

theorem b_high_le : smoothed_b 0.999 ≤ 0.0141 := by
  obtain ⟨hlo, hhi⟩ := log_999m_bounds
  unfold smoothed_b
  rw [show max (0.999:ℝ) 0.0000001 = 0.999 from by norm_num]
  have hinner_lo : (0:ℝ) ≤ 0.11852 - 0.05478 * Real.log 0.999 := by nlinarith
  have hinner_hi : 0.11852 - 0.05478 * Real.log 0.999 ≤ 0.1186 := by nlinarith
  calc (0.11852 - 0.05478 * Real.log 0.999) ^ 2 ≤ 0.1186 ^ 2 :=
      pow_le_pow_left₀ hinner_lo hinner_hi 2
    _ ≤ 0.0141 := by norm_num

theorem ma_high_bounds : 0 ≤ maturity_adjustment mono_loan_high 0.999 ∧
    maturity_adjustment mono_loan_high 0.999 ≤ 1.03 := by
  have hb0 : 0 ≤ smoothed_b 0.999 := sq_nonneg _
  have hb1 := b_high_le
  unfold maturity_adjustment
  rw [show 1 + (mono_loan_high.maturity - 2.5) * smoothed_b 0.999 = 1 from by
    norm_num [mono_loan_high]]
  have hd_pos : 0 < 1 - 1.5 * smoothed_b 0.999 := by nlinarith
  constructor
  · positivity
  · rw [div_le_iff₀ hd_pos]
    nlinarith

theorem vasicek_high_eq : vasicek_model_capital logisticN mono_loan_high =
    max ((1:ℝ) *
      (logistic_cdf ((logistic_ppf 0.999 +
          Real.sqrt (calculate_asset_correlation mono_loan_high) *
            logistic_ppf 0.999) /
        Real.sqrt (1 - calculate_asset_correlation mono_loan_high)) - 0.999) *
      maturity_adjustment mono_loan_high 0.999) 0 := by
  unfold vasicek_model_capital
  rw [if_neg (by norm_num [mono_loan_high] : ¬ mono_loan_high.pd = 0),
    if_neg (by norm_num [mono_loan_high] : ¬ (1:ℝ) ≤ mono_loan_high.pd)]
  rfl

theorem vasicek_high_le :
    vasicek_model_capital logisticN mono_loan_high ≤ 0.0011 := by
  rw [vasicek_high_eq]
  obtain ⟨hma0, hma1⟩ := ma_high_bounds
  set t := (logistic_ppf 0.999 +
      Real.sqrt (calculate_asset_correlation mono_loan_high) *
        logistic_ppf 0.999) /
    Real.sqrt (1 - calculate_asset_correlation mono_loan_high) with ht
  have hc1 : logistic_cdf t < 1 := logistic_cdf_lt_one t
  apply max_le _ (by norm_num)
  have step1 : (logistic_cdf t - 0.999) * maturity_adjustment mono_loan_high 0.999 ≤
      0.001 * maturity_adjustment mono_loan_high 0.999 :=
    mul_le_mul_of_nonneg_right (by linarith) hma0
  have step2 : (0.001:ℝ) * maturity_adjustment mono_loan_high 0.999 ≤ 0.001 * 1.03 :=
    mul_le_mul_of_nonneg_left hma1 (by norm_num)
  nlinarith [step1, step2]

/-- C3 counterexample: the two valid loans `mono_loan_low` (pd 0.5) and
`mono_loan_high` (pd 0.999), identical in lgd, ead, maturity, exposure type
and turnover, with pd1 < pd2 < 1, give capital ratios K(0.999) ≤ 0.0011 <
0.4 ≤ K(0.5): increasing pd strictly DECREASES the capital ratio here, so
"increasing pd never decreases capitalRatio" fails on the code. -/
theorem C3_counterexample :
    mono_loan_low.Valid ∧ mono_loan_high.Valid ∧
    mono_loan_low.lgd = mono_loan_high.lgd ∧
    mono_loan_low.ead = mono_loan_high.ead ∧
    mono_loan_low.maturity = mono_loan_high.maturity ∧
    mono_loan_low.exposure_type = mono_loan_high.exposure_type ∧
    mono_loan_low.turnover = mono_loan_high.turnover ∧
    mono_loan_low.pd < mono_loan_high.pd ∧ mono_loan_high.pd < 1 ∧
    vasicek_model_capital logisticN mono_loan_high <
      vasicek_model_capital logisticN mono_loan_low := by
  refine ⟨⟨by norm_num [mono_loan_low], by norm_num [mono_loan_low],
      by norm_num [mono_loan_low], by norm_num [mono_loan_low],
      by norm_num [mono_loan_low], by norm_num [mono_loan_low],
      fun t ht => by simp [mono_loan_low] at ht⟩,
    ⟨by norm_num [mono_loan_high], by norm_num [mono_loan_high],
      by norm_num [mono_loan_high], by norm_num [mono_loan_high],
      by norm_num [mono_loan_high], by norm_num [mono_loan_high],
      fun t ht => by simp [mono_loan_high] at ht⟩,
    rfl, rfl, rfl, rfl, rfl,
    by norm_num [mono_loan_low, mono_loan_high],
    by norm_num [mono_loan_high], ?_⟩
  calc vasicek_model_capital logisticN mono_loan_high ≤ 0.0011 := vasicek_high_le
    _ < 0.4 := by norm_num
    _ ≤ vasicek_model_capital logisticN mono_loan_low := vasicek_low_ge

/-- C3 (amended): the capital ratio is not monotone in pd over (0,1) — it
collapses back towards 0 as pd approaches 1 — but it never goes below its
pd = 0 value: K is 0 at pd = 0 and nonnegative everywhere, so increasing pd
away from 0 never decreases the capital ratio. -/
theorem C3_capital_nondecreasing_from_zero (N : NormalCDF) (loan1 loan2 : Loan)
    (hlgd : loan1.lgd = loan2.lgd) (head_eq : loan1.ead = loan2.ead)
    (hmat : loan1.maturity = loan2.maturity)
    (hpd1 : loan1.pd = 0) (hlt : loan1.pd < loan2.pd) (hpd2 : loan2.pd < 1) :
    vasicek_model_capital N loan1 ≤ vasicek_model_capital N loan2 := by
  have h1 : vasicek_model_capital N loan1 = 0 := by
    unfold vasicek_model_capital
    rw [if_pos hpd1]
  rw [h1]
  exact vasicek_model_capital_nonneg N loan2

/-- Witness for the amended C3 at pd 0 versus pd 0.5. -/
theorem C3_capital_nondecreasing_from_zero_witness :
    vasicek_model_capital logisticN
        { id := "Z1", pd := 0, lgd := 1, ead := 1, maturity := 2.5,
          exposure_type := ExposureType.CORPORATE, turnover := none } ≤
      vasicek_model_capital logisticN
        { id := "Z2", pd := 0.5, lgd := 1, ead := 1, maturity := 2.5,
          exposure_type := ExposureType.CORPORATE, turnover := none } :=
  C3_capital_nondecreasing_from_zero logisticN
    { id := "Z1", pd := 0, lgd := 1, ead := 1, maturity := 2.5,
      exposure_type := ExposureType.CORPORATE, turnover := none }
    { id := "Z2", pd := 0.5, lgd := 1, ead := 1, maturity := 2.5,
      exposure_type := ExposureType.CORPORATE, turnover := none }
    rfl rfl rfl rfl (by norm_num) (by norm_num)
